import Mathlib

/-!
Shallow embedding of `src/main.rs` of the kubefs repository: a read-only FUSE
filesystem exposing Kubernetes namespaces (directories at the root) and the
pods inside them (leaf entries).

Machine integers (u64, usize, i64) are modelled as `Nat` / `Int` with explicit
`% 2^64` where the Rust code wraps.  Fallible remote calls (`get_pods`,
`get_namespaces_blocking`) are external collaborators and are passed in as
`String → Option (List String)` / `Option (List String)` parameters; `none`
models a `Result::Err` from the kube client.  Rust panics (`unimplemented!()`,
`.expect(..)`, out-of-bounds slicing) are modelled by the `Outcome.crash`
constructor.  FUSE reply objects are modelled by small inductive reply types;
a handler that returns without invoking its reply object at all is modelled
by a `dropped` constructor.
-/

/-- `fuser::FileType` (variant order as declared in the fuser crate; the
derived `Hash` feeds the variant's discriminant to the hasher). -/
inductive FileType where
  | NamedPipe
  | CharDevice
  | BlockDevice
  | Directory
  | RegularFile
  | Symlink
  | Socket
deriving DecidableEq, Repr

/-- Variant discriminant of `fuser::FileType`, as used by its derived `Hash`. -/
def FileType.discr : FileType → Nat
  | .NamedPipe => 0
  | .CharDevice => 1
  | .BlockDevice => 2
  | .Directory => 3
  | .RegularFile => 4
  | .Symlink => 5
  | .Socket => 6

/-- `enum ResourceScope { Namespaced { name, namespace }, Cluster { name } }`.
The Rust field `namespace` is a Lean keyword, hence the guillemets. -/
inductive ResourceScope where
  | Namespaced (name : String) («namespace» : String)
  | Cluster (name : String)
deriving DecidableEq, Repr

/-- `struct KubernetesResource { reference, kind, group, file_type }`. -/
structure KubernetesResource where
  reference : ResourceScope
  kind : String
  group : String
  file_type : FileType
deriving DecidableEq, Repr

/-! ## std::collections::hash_map::DefaultHasher

`KubernetesResource::inode` hashes the resource with `DefaultHasher::new()`,
which is SipHash-1-3 with both keys fixed to 0 (no randomness, no
process-specific salt).  We embed that hash faithfully: the derived `Hash`
impls turn the resource into a byte stream (enum discriminants are written as
8 little-endian bytes, each `String` as its UTF-8 bytes followed by a single
`0xff` terminator byte), and SipHash-1-3 is computed over that stream. -/

/-- 2^64, the modulus of u64 arithmetic. -/
def U64 : Nat := 2 ^ 64

/-- u64 wrapping addition. -/
def add64 (a b : Nat) : Nat := (a + b) % U64

/-- u64 left rotation by `k` bits (for `0 < k < 64`, inputs `< 2^64`). -/
def rotl64 (a k : Nat) : Nat := ((a <<< k) % U64) ||| (a >>> (64 - k))

/-- One SipHash round. -/
def sipRound : Nat × Nat × Nat × Nat → Nat × Nat × Nat × Nat
  | (v0, v1, v2, v3) =>
    let v0 := add64 v0 v1
    let v1 := rotl64 v1 13
    let v1 := v1 ^^^ v0
    let v0 := rotl64 v0 32
    let v2 := add64 v2 v3
    let v3 := rotl64 v3 16
    let v3 := v3 ^^^ v2
    let v0 := add64 v0 v3
    let v3 := rotl64 v3 21
    let v3 := v3 ^^^ v0
    let v2 := add64 v2 v1
    let v1 := rotl64 v1 17
    let v1 := v1 ^^^ v2
    let v2 := rotl64 v2 32
    (v0, v1, v2, v3)

/-- A little-endian 64-bit word from up to 8 bytes (first byte is least
significant). -/
def toLE64 (bytes : List Nat) : Nat := bytes.foldr (fun b acc => b + 256 * acc) 0

/-- One SipHash-1-3 compression step (c = 1 round per message word). -/
def sipCompress (st : Nat × Nat × Nat × Nat) (m : Nat) : Nat × Nat × Nat × Nat :=
  match st with
  | (v0, v1, v2, v3) =>
    let (w0, w1, w2, w3) := sipRound (v0, v1, v2 , v3 ^^^ m)
    (w0 ^^^ m, w1, w2, w3)

/-- Consume full 8-byte words of the input, returning the final state and the
remaining (fewer than 8) bytes. -/
def sipBlocks : Nat × Nat × Nat × Nat → List Nat → (Nat × Nat × Nat × Nat) × List Nat
  | st, b0 :: b1 :: b2 :: b3 :: b4 :: b5 :: b6 :: b7 :: rest =>
      sipBlocks (sipCompress st (toLE64 [b0, b1, b2, b3, b4, b5, b6, b7])) rest
  | st, rest => (st, rest)

/-- SipHash-1-3 (the algorithm behind `DefaultHasher`) with keys `k0`, `k1`
over a byte stream. -/
def sipHash13 (k0 k1 : Nat) (data : List Nat) : Nat :=
  let v0 := 0x736f6d6570736575 ^^^ k0
  let v1 := 0x646f72616e646f6d ^^^ k1
  let v2 := 0x6c7967656e657261 ^^^ k0
  let v3 := 0x7465646279746573 ^^^ k1
  let (st, rem) := sipBlocks (v0, v1, v2, v3) data
  let b := ((data.length % 256) <<< 56) + toLE64 rem
  match st with
  | (v0, v1, v2, v3) =>
    let (u0, u1, u2, u3) := sipRound (v0, v1, v2, v3 ^^^ b)
    let (f0, f1, f2, f3) := sipRound (sipRound (sipRound (u0 ^^^ b, u1, u2 ^^^ 0xff, u3)))
    f0 ^^^ f1 ^^^ f2 ^^^ f3

/-- UTF-8 encoding of a single character (as byte values). -/
def charUTF8 (c : Char) : List Nat :=
  let n := c.toNat
  if n < 0x80 then [n]
  else if n < 0x800 then [0xc0 + n / 64, 0x80 + n % 64]
  else if n < 0x10000 then [0xe0 + n / 4096, 0x80 + n / 64 % 64, 0x80 + n % 64]
  else [0xf0 + n / 262144, 0x80 + n / 4096 % 64, 0x80 + n / 64 % 64, 0x80 + n % 64]

/-- The UTF-8 bytes of a string (`str::as_bytes`). -/
def stringBytes (s : String) : List Nat := (s.toList.map charUTF8).flatten

/-- `Hash for str`: the UTF-8 bytes followed by a single `0xff` byte. -/
def strHashBytes (s : String) : List Nat := stringBytes s ++ [0xff]

/-- Eight little-endian bytes of a small non-negative integer (how `Hasher`
writes an enum discriminant on a 64-bit little-endian target). -/
def leBytes8 (n : Nat) : List Nat :=
  [n % 256, n / 256 % 256, n / 256 ^ 2 % 256, n / 256 ^ 3 % 256,
   n / 256 ^ 4 % 256, n / 256 ^ 5 % 256, n / 256 ^ 6 % 256, n / 256 ^ 7 % 256]

/-- Byte stream of the derived `Hash` for `ResourceScope`: discriminant
(`Namespaced` = 0, `Cluster` = 1), then the fields in declaration order. -/
def ResourceScope.hashBytes : ResourceScope → List Nat
  | .Namespaced name ns => leBytes8 0 ++ strHashBytes name ++ strHashBytes ns
  | .Cluster name => leBytes8 1 ++ strHashBytes name

/-- Byte stream of the derived `Hash` for `KubernetesResource`: the fields in
declaration order. -/
def KubernetesResource.hashBytes (r : KubernetesResource) : List Nat :=
  r.reference.hashBytes ++ strHashBytes r.kind ++ strHashBytes r.group ++
    leBytes8 r.file_type.discr

/-- `KubernetesResource::inode`: hash the resource with `DefaultHasher::new()`
(SipHash-1-3, both keys 0) and return `finish()`. -/
def KubernetesResource.inode (r : KubernetesResource) : Nat :=
  sipHash13 0 0 r.hashBytes

/-- `KubernetesResource::new_namespace`. -/
def KubernetesResource.new_namespace (name : String) : KubernetesResource :=
  { reference := ResourceScope.Cluster name
    kind := "namespace"
    group := "corev1"
    file_type := FileType.Directory }

/-- `KubernetesResource::name` (display name; `Namespaced` renders as
`namespace/name`). -/
def KubernetesResource.name (r : KubernetesResource) : String :=
  match r.reference with
  | ResourceScope.Namespaced name ns => ns ++ "/" ++ name
  | ResourceScope.Cluster name => name

/-- The bare-name match the source performs inline at every lookup/readdir
site (`Namespaced { name, .. } => name, Cluster { name } => name`). -/
def refNameOf : ResourceScope → String
  | ResourceScope.Namespaced name _ => name
  | ResourceScope.Cluster name => name

/-! ## FileAttr and constants -/

/-- `fuser::FileAttr` (timestamps as seconds since `UNIX_EPOCH`, which the
source always sets to the epoch itself, i.e. 0). -/
structure FileAttr where
  ino : Nat
  size : Nat
  blocks : Nat
  atime : Nat
  mtime : Nat
  ctime : Nat
  crtime : Nat
  kind : FileType
  perm : Nat
  nlink : Nat
  uid : Nat
  gid : Nat
  rdev : Nat
  flags : Nat
  blksize : Nat
  padding : Nat
deriving DecidableEq, Repr

/-- `const TTL: Duration = Duration::from_secs(1)`, in seconds. -/
def TTL : Nat := 1

/-- `libc::ENOENT` ("no such entry"). -/
def ENOENT : Nat := 2

/-- `libc::EISDIR` ("is a directory"). -/
def EISDIR : Nat := 21

/-- `libc::ENOSYS` ("operation not supported"). -/
def ENOSYS : Nat := 38

/-- `HELLO_DIR_ATTR`. -/
def HELLO_DIR_ATTR : FileAttr :=
  { ino := 1, size := 0, blocks := 0, atime := 0, mtime := 0, ctime := 0, crtime := 0
    kind := FileType.Directory, perm := 0o755, nlink := 2, uid := 501, gid := 20
    rdev := 0, flags := 0, blksize := 512, padding := 0 }

/-- `HELLO_TXT_CONTENT`. -/
def HELLO_TXT_CONTENT : String := "Hello World!\n"

/-- The byte view `HELLO_TXT_CONTENT.as_bytes()`. -/
def helloBytes : List Nat := stringBytes HELLO_TXT_CONTENT

/-- `HELLO_TXT_ATTR`. -/
def HELLO_TXT_ATTR : FileAttr :=
  { ino := 2, size := 13, blocks := 1, atime := 0, mtime := 0, ctime := 0, crtime := 0
    kind := FileType.RegularFile, perm := 0o644, nlink := 1, uid := 501, gid := 20
    rdev := 0, flags := 0, blksize := 512, padding := 0 }

/-- `KubernetesResource::file_attr` (note: `kind` is hardcoded to
`FileType::Directory`, the resource's own `file_type` field is not used). -/
def KubernetesResource.file_attr (r : KubernetesResource) : FileAttr :=
  { ino := r.inode, size := 1, blocks := 1, atime := 0, mtime := 0, ctime := 0, crtime := 0
    kind := FileType.Directory, perm := 0o774, nlink := 1, uid := 501, gid := 20
    rdev := 0, flags := 0, blksize := 512, padding := 0 }

/-! ## BTreeMap

`DirectoryDescriptor = BTreeMap<Inode, KubernetesResource>` and
`NamespaceContents = BTreeMap<Inode, Vec<KubernetesResource>>` are modelled as
key-sorted association lists: `insert` replaces the value on an equal key and
otherwise keeps the list sorted by key, which reproduces the BTreeMap's
ascending-key iteration order. -/

/-- `BTreeMap::insert` on a key-sorted association list. -/
def btInsert {α : Type} (k : Nat) (v : α) : List (Nat × α) → List (Nat × α)
  | [] => [(k, v)]
  | (k1, v1) :: t =>
    if k < k1 then (k, v) :: (k1, v1) :: t
    else if k = k1 then (k, v) :: t
    else (k1, v1) :: btInsert k v t

/-- `BTreeMap::get`. -/
def btGet {α : Type} (k : Nat) : List (Nat × α) → Option α
  | [] => none
  | (k1, v1) :: t => if k = k1 then some v1 else btGet k t

/-- The outcome of running a handler: a normal return, or a Rust panic
(`unimplemented!()`, a failed `.expect`, an out-of-bounds slice). -/
inductive Outcome (α : Type) where
  | ok (val : α)
  | crash
deriving DecidableEq, Repr

/-- `struct KubeFS { directory, namespace_directory, cache }`. -/
structure KubeFS where
  directory : List (Nat × KubernetesResource)
  namespace_directory : List (Nat × List KubernetesResource)
  cache : Bool
deriving DecidableEq, Repr

/-- `KubeFS::populate_directory_with_namespaces`. -/
def KubeFS.populate_directory_with_namespaces (fs : KubeFS) (namespaces : List String) : KubeFS :=
  namespaces.foldl
    (fun acc ns =>
      let k := KubernetesResource.new_namespace ns
      { acc with directory := btInsert k.inode k acc.directory })
    fs

/-- `KubeFS::new`, with the result of the external
`get_namespaces_blocking()` call passed in (`none` = the call failed, on
which the source's `.expect` panics). -/
def KubeFS.new (namespaces : Option (List String)) : Outcome KubeFS :=
  match namespaces with
  | none => Outcome.crash
  | some ns =>
    Outcome.ok (KubeFS.populate_directory_with_namespaces
      { directory := [], namespace_directory := [], cache := false } ns)

/-- A `KubeFS` freshly constructed from a successful namespace listing. -/
def mkKubeFS (namespaces : List String) : KubeFS :=
  KubeFS.populate_directory_with_namespaces
    { directory := [], namespace_directory := [], cache := false } namespaces

/-- The type of the external pod-listing collaborator `get_pods`
(`none` = the remote fetch failed). -/
def Fetcher : Type := String → Option (List String)

/-- `KubeFS::populate_namespaces_directory`.  An inode unknown to
`self.directory` hits `unimplemented!()` (a panic); a failed `get_pods` hits
`.expect("Error fetching Pods from kube-api")` (a panic). -/
def KubeFS.populate_namespaces_directory (get_pods : Fetcher) (fs : KubeFS) (inode : Nat) :
    Outcome KubeFS :=
  match btGet inode fs.directory with
  | none => Outcome.crash
  | some nsRes =>
    let namespace_name := refNameOf nsRes.reference
    match get_pods namespace_name with
    | none => Outcome.crash
    | some pods =>
      let resources := pods.map (fun pod =>
        { reference := ResourceScope.Namespaced pod namespace_name
          kind := "Pod"
          group := "corev1"
          file_type := FileType.RegularFile : KubernetesResource })
      Outcome.ok { fs with namespace_directory := btInsert inode resources fs.namespace_directory }

/-- `KubeFS::find_namespaced_resources`. -/
def KubeFS.find_namespaced_resources (fs : KubeFS) (inode : Nat) : List KubernetesResource :=
  match btGet inode fs.namespace_directory with
  | some directory => directory
  | none => []

/-! ## Protocol replies -/

/-- A `fuser::ReplyEntry`: `entry(ttl, attr, generation)`, `error(errno)`, or
dropped without any reply (the source's `lookup` falls through without
replying when no name matches). -/
inductive EntryReply where
  | entry (ttl : Nat) (attr : FileAttr) (generation : Nat)
  | error (errno : Nat)
  | dropped
deriving DecidableEq, Repr

/-- A `fuser::ReplyAttr`: `attr(ttl, attr)` or `error(errno)`. -/
inductive AttrReply where
  | attr (ttl : Nat) (a : FileAttr)
  | error (errno : Nat)
deriving DecidableEq, Repr

/-- A `fuser::ReplyData`: `data(bytes)` or `error(errno)`. -/
inductive ReadReply where
  | data (bytes : List Nat)
  | error (errno : Nat)
deriving DecidableEq, Repr

/-- A `fuser::ReplyEmpty`: `ok()` or `error(errno)`. -/
inductive EmptyReply where
  | ok
  | error (errno : Nat)
deriving DecidableEq, Repr

/-- A `fuser::ReplyWrite`: `written(size)` or `error(errno)`. -/
inductive WriteReply where
  | written (size : Nat)
  | error (errno : Nat)
deriving DecidableEq, Repr

/-- A `fuser::ReplyCreate`: `created(..)` or `error(errno)`. -/
inductive CreateReply where
  | created (ttl : Nat) (attr : FileAttr) (generation fh flags : Nat)
  | error (errno : Nat)
deriving DecidableEq, Repr

/-- One entry passed to `ReplyDirectory::add(ino, offset, kind, name)`: the
entry's inode, its 1-based position cursor, its file type and its name. -/
structure DirEntry where
  ino : Nat
  cursor : Nat
  kind : FileType
  name : String
deriving DecidableEq, Repr

/-- The emission loop at the end of `readdir`:
`for (idx, entry) in entries.into_iter().enumerate().skip(offset)`
followed by `reply.add(entry.0, (idx + 1) as i64, entry.1, &entry.2)`. -/
def emitEntries (entries : List (Nat × FileType × String)) (offset : Nat) : List DirEntry :=
  (entries.enum.drop offset).map
    (fun p => { ino := p.2.1, cursor := p.1 + 1, kind := p.2.2.1, name := p.2.2.2 })

/-- The fixed `.` / `..` entries every `readdir` reply starts with (both carry
the directory's own inode in the source). -/
def baseEntries (ino : Nat) : List (Nat × FileType × String) :=
  [(ino, FileType.Directory, "."), (ino, FileType.Directory, "..")]

/-- `KubeFS::readdir`.  The root (inode 1) lists the namespace directory;
any other inode first re-populates that namespace from `get_pods` (the
`cache` flag is `false`, and the `cache == true` arm is `unimplemented!()`),
then lists the namespace's resources.  Returns the updated filesystem state
and the emitted entries; the source ends with `reply.ok()`. -/
def KubeFS.readdir (get_pods : Fetcher) (fs : KubeFS) (ino : Nat) (offset : Nat) :
    Outcome (KubeFS × List DirEntry) :=
  if ino = 1 then
    let entries := baseEntries ino ++
      fs.directory.map (fun p => (p.1, FileType.Directory, refNameOf p.2.reference))
    Outcome.ok (fs, emitEntries entries offset)
  else
    if fs.cache = false then
      match fs.populate_namespaces_directory get_pods ino with
      | Outcome.crash => Outcome.crash
      | Outcome.ok fs1 =>
        let entries := baseEntries ino ++
          (fs1.find_namespaced_resources ino).map
            (fun nsr => (nsr.inode, nsr.file_type, refNameOf nsr.reference))
        Outcome.ok (fs1, emitEntries entries offset)
    else Outcome.crash

/-- The linear scan both arms of `lookup` perform: reply with
`entry(&TTL, &resource.file_attr(), 1)` for the first resource whose bare
name matches, and fall through without replying otherwise. -/
def scanEntry (sname : String) : List KubernetesResource → EntryReply
  | [] => EntryReply.dropped
  | r :: rest =>
    if refNameOf r.reference = sname then EntryReply.entry TTL r.file_attr 1
    else scanEntry sname rest

/-- `KubeFS::lookup`.  Parent 1 scans the namespace directory; any other
parent first populates the namespace if (and only if) it has no cached
contents, then scans those contents.  Returns the updated state and the
reply. -/
def KubeFS.lookup (get_pods : Fetcher) (fs : KubeFS) (parent : Nat) (sname : String) :
    Outcome (KubeFS × EntryReply) :=
  if parent = 1 then
    Outcome.ok (fs, scanEntry sname (fs.directory.map Prod.snd))
  else
    match (if (btGet parent fs.namespace_directory).isSome = false
           then fs.populate_namespaces_directory get_pods parent
           else Outcome.ok fs) with
    | Outcome.crash => Outcome.crash
    | Outcome.ok fs1 =>
      match btGet parent fs1.namespace_directory with
      | some resources => Outcome.ok (fs1, scanEntry sname resources)
      | none => Outcome.ok (fs1, EntryReply.dropped)

/-- `KubeFS::getattr`.  A straight match on the inode: 1 and every inode
other than 2 reply the hello-directory attributes, 2 replies the hello-file
attributes; no arm consults the store and no arm replies an error. -/
def getattr (ino : Nat) : AttrReply :=
  if ino = 1 then AttrReply.attr TTL HELLO_DIR_ATTR
  else if ino = 2 then AttrReply.attr TTL HELLO_TXT_ATTR
  else AttrReply.attr TTL HELLO_DIR_ATTR

/-- `KubeFS::read`.  Inode 2 replies
`&HELLO_TXT_CONTENT.as_bytes()[offset as usize..]` — the `i64 → usize` cast
wraps mod 2^64 and the range slice panics when the start index exceeds the
length — and every other inode replies `ENOENT`.  The `size` argument is
ignored by the source (`_size`). -/
def KubeFS.read (ino : Nat) (offset : Int) (_size : Nat) : Outcome ReadReply :=
  if ino = 2 then
    let idx : Nat := (offset % (2 ^ 64 : Int)).toNat
    if idx ≤ helloBytes.length then Outcome.ok (ReadReply.data (helloBytes.drop idx))
    else Outcome.crash
  else Outcome.ok (ReadReply.error ENOENT)

/-! ## Mutating operations

Every mutating handler in the source is a one-liner `reply.error(ENOSYS)`;
the argument lists mirror the source signatures (u64/u32 as `Nat`, `OsStr`
as `String`, byte buffers as `List Nat`, `Option<...>` as `Option Nat`). -/

/-- `KubeFS::setattr`. -/
def setattr (_ino : Nat) (_mode _uid _gid _size : Option Nat)
    (_atime : Option Nat) (_atime_now : Bool) (_mtime : Option Nat) (_mtime_now : Bool)
    (_fh _crtime _chgtime _bkuptime _flags : Option Nat) : AttrReply :=
  AttrReply.error ENOSYS

/-- `KubeFS::mknod`. -/
def mknod (_parent : Nat) (_name : String) (_mode _rdev : Nat) : EntryReply :=
  EntryReply.error ENOSYS

/-- `KubeFS::mkdir`. -/
def mkdir (_parent : Nat) (_name : String) (_mode : Nat) : EntryReply :=
  EntryReply.error ENOSYS

/-- `KubeFS::unlink`. -/
def unlink (_parent : Nat) (_name : String) : EmptyReply :=
  EmptyReply.error ENOSYS

/-- `KubeFS::rmdir`. -/
def rmdir (_parent : Nat) (_name : String) : EmptyReply :=
  EmptyReply.error ENOSYS

/-- `KubeFS::symlink`. -/
def symlink (_parent : Nat) (_name : String) (_link : String) : EntryReply :=
  EntryReply.error ENOSYS

/-- `KubeFS::rename`. -/
def rename (_parent : Nat) (_name : String) (_newparent : Nat) (_newname : String) : EmptyReply :=
  EmptyReply.error ENOSYS

/-- `KubeFS::link`. -/
def link (_ino _newparent : Nat) (_newname : String) : EntryReply :=
  EntryReply.error ENOSYS

/-- `KubeFS::write`. -/
def write (_ino _fh : Nat) (_offset : Int) (_data : List Nat) (_flags : Nat) : WriteReply :=
  WriteReply.error ENOSYS

/-- `KubeFS::setxattr`. -/
def setxattr (_ino : Nat) (_name : String) (_value : List Nat) (_flags _position : Nat) : EmptyReply :=
  EmptyReply.error ENOSYS

/-- `KubeFS::removexattr`. -/
def removexattr (_ino : Nat) (_name : String) : EmptyReply :=
  EmptyReply.error ENOSYS

/-- `KubeFS::create`. -/
def create (_parent : Nat) (_name : String) (_mode _flags : Nat) : CreateReply :=
  CreateReply.error ENOSYS

/-- `KubeFS::getlk`. -/
def getlk (_ino _fh _lock_owner _start _lockEnd _typ _pid : Nat) : EmptyReply :=
  EmptyReply.error ENOSYS

/-- `KubeFS::setlk`. -/
def setlk (_ino _fh _lock_owner _start _lockEnd _typ _pid : Nat) (_sleepFlag : Bool) : EmptyReply :=
  EmptyReply.error ENOSYS

/-! ## Sample values used by concrete evaluations -/

/-- The inode the store derives for the `default` namespace. -/
def defaultIno : Nat := (KubernetesResource.new_namespace "default").inode

/-- The resource `populate_namespaces_directory` constructs for pod `web-1`
of namespace `default`. -/
def podRes : KubernetesResource :=
  { reference := ResourceScope.Namespaced "web-1" "default"
    kind := "Pod"
    group := "corev1"
    file_type := FileType.RegularFile }

/-- A filesystem freshly initialized from the namespace listing `["default"]`. -/
def sampleFS : KubeFS := mkKubeFS ["default"]

/-- `sampleFS` after the `default` namespace has been populated from a
fetcher that returns the single pod `web-1`. -/
def popFS : KubeFS :=
  match KubeFS.populate_namespaces_directory (fun _ => some ["web-1"]) sampleFS defaultIno with
  | Outcome.ok fs => fs
  | Outcome.crash => sampleFS

/-- The entries emitted by `readdir` on the root at offset 0 (the root
listing never crashes). -/
def rootListing (get_pods : Fetcher) (fs : KubeFS) : List DirEntry :=
  match KubeFS.readdir get_pods fs 1 0 with
  | Outcome.ok p => p.2
  | Outcome.crash => []

/-- The names emitted by a `readdir` outcome. -/
def listingNames (o : Outcome (KubeFS × List DirEntry)) : List String :=
  match o with
  | Outcome.ok p => p.2.map DirEntry.name
  | Outcome.crash => []

/-- The raw entry list `readdir` builds for the root of `sampleFS`. -/
def sampleRootEntries : List (Nat × FileType × String) :=
  baseEntries 1 ++
    sampleFS.directory.map (fun p => (p.1, FileType.Directory, refNameOf p.2.reference))

/-- The root listing of `sampleFS` at offset 0. -/
def sampleRootL : List DirEntry := emitEntries sampleRootEntries 0

/-! ## Shared lemmas -/

/-- Emitting with an offset is dropping a prefix of the offset-0 emission:
`enumerate().skip(offset)` keeps the absolute indices of the surviving
entries. -/
theorem emitEntries_drop (entries : List (Nat × FileType × String)) (offset : Nat) :
    emitEntries entries offset = (emitEntries entries 0).drop offset := by
  simp only [emitEntries, List.drop_zero, List.map_drop]

/-- In the offset-0 emission, the entry at index `i` carries the 1-based
cursor `i + 1`. -/
theorem emitEntries_cursor (entries : List (Nat × FileType × String)) (i : Nat)
    (h : i < (emitEntries entries 0).length) :
    ((emitEntries entries 0).get ⟨i, h⟩).cursor = i + 1 := by
  simp [emitEntries, List.get_eq_getElem, List.getElem_map, List.getElem_enum]

/-- The offset-0 emission of `[self, parent, ...rest]` starts with the two
fixed entries at cursors 1 and 2. -/
theorem emitEntries_base (ino : Nat) (rest : List (Nat × FileType × String)) :
    emitEntries (baseEntries ino ++ rest) 0 =
      { ino := ino, cursor := 1, kind := FileType.Directory, name := "." } ::
      { ino := ino, cursor := 2, kind := FileType.Directory, name := ".." } ::
      (List.enumFrom 2 rest).map
        (fun p => { ino := p.2.1, cursor := p.1 + 1, kind := p.2.2.1, name := p.2.2.2 }) := by
  simp [emitEntries, baseEntries, List.enum_cons, List.enumFrom_cons]

/-- Membership after a `btInsert` comes from the inserted pair or the old
list. -/
theorem mem_btInsert {α : Type} {k : Nat} {v : α} {p : Nat × α} :
    ∀ l : List (Nat × α), p ∈ btInsert k v l → p = (k, v) ∨ p ∈ l := by
  intro l
  induction l with
  | nil =>
    intro h
    simp only [btInsert, List.mem_singleton] at h
    exact Or.inl h
  | cons hd tl ih =>
    obtain ⟨k1, v1⟩ := hd
    intro h
    simp only [btInsert] at h
    split at h
    · rcases List.mem_cons.mp h with h1 | h1
      · exact Or.inl h1
      · exact Or.inr h1
    · split at h
      · rcases List.mem_cons.mp h with h1 | h1
        · exact Or.inl h1
        · exact Or.inr (List.mem_cons_of_mem _ h1)
      · rcases List.mem_cons.mp h with h1 | h1
        · exact Or.inr (by simp [h1])
        · rcases ih h1 with h2 | h2
          · exact Or.inl h2
          · exact Or.inr (List.mem_cons_of_mem _ h2)

/-- Every entry of a directory produced by `populate_directory_with_namespaces`
is either inherited or a namespace resource keyed by its own inode. -/
theorem mem_populate_directory :
    ∀ (namespaces : List String) (fs : KubeFS) (p : Nat × KubernetesResource),
      p ∈ (fs.populate_directory_with_namespaces namespaces).directory →
      p ∈ fs.directory ∨ ∃ n ∈ namespaces,
        p = ((KubernetesResource.new_namespace n).inode, KubernetesResource.new_namespace n) := by
  intro namespaces
  induction namespaces with
  | nil => intro fs p h; exact Or.inl h
  | cons n t ih =>
    intro fs p h
    have h1 : p ∈ (KubeFS.populate_directory_with_namespaces { fs with directory := btInsert (KubernetesResource.new_namespace n).inode (KubernetesResource.new_namespace n) fs.directory } t).directory := h
    rcases ih _ p h1 with h2 | h2
    · rcases mem_btInsert _ h2 with h3 | h3
      · exact Or.inr ⟨n, List.mem_cons_self n t, h3⟩
      · exact Or.inl h3
    · obtain ⟨m, hm, hp⟩ := h2
      exact Or.inr ⟨m, List.mem_cons_of_mem _ hm, hp⟩

/-- Every entry of a freshly-built store's directory is a namespace resource
keyed by its own inode. -/
theorem mem_mkKubeFS_directory {namespaces : List String} {p : Nat × KubernetesResource}
    (h : p ∈ (mkKubeFS namespaces).directory) :
    ∃ n ∈ namespaces,
      p = ((KubernetesResource.new_namespace n).inode, KubernetesResource.new_namespace n) := by
  rcases mem_populate_directory namespaces _ p h with h1 | h1
  · simp at h1
  · exact h1

/-- A pair in an enumeration has its payload in the underlying list. -/
theorem mem_of_mem_enum {α : Type} {i : Nat} {x : α} {l : List α}
    (h : (i, x) ∈ l.enum) : x ∈ l := by
  obtain ⟨-, h2, h3⟩ := List.mem_enumFrom (by simpa [List.enum] using h)
  rw [h3]
  exact List.getElem_mem _

/-- On a list of namespace resources that contains a match for `sname`, the
lookup scan replies with the attributes of that namespace resource. -/
theorem scanEntry_namespace {l : List KubernetesResource} {sname : String}
    (hall : ∀ r ∈ l, ∃ n, r = KubernetesResource.new_namespace n)
    (hex : ∃ r ∈ l, refNameOf r.reference = sname) :
    scanEntry sname l =
      EntryReply.entry TTL (KubernetesResource.new_namespace sname).file_attr 1 := by
  induction l with
  | nil => simp at hex
  | cons r t ih =>
    by_cases hr : refNameOf r.reference = sname
    · obtain ⟨n, hn⟩ := hall r (List.mem_cons_self r t)
      have hns : n = sname := by
        subst hn
        simpa [refNameOf, KubernetesResource.new_namespace] using hr
      subst hns
      subst hn
      simp [scanEntry, hr]
    · obtain ⟨r0, hr0m, hr0⟩ := hex
      have hr0t : r0 ∈ t := by
        rcases List.mem_cons.mp hr0m with h | h
        · exact absurd (h ▸ hr0) hr
        · exact h
      have := ih (fun s hs => hall s (List.mem_cons_of_mem _ hs)) ⟨r0, hr0t, hr0⟩
      simpa [scanEntry, hr] using this

/-! ## Claims -/

/-- Claim C1: a failed pod-listing fetch, and a directory request on an
identifier unknown to the store, do NOT reply "no such entry" — the source
panics in both situations (`.expect("Error fetching Pods from kube-api")` and
`unimplemented!()` in `populate_namespaces_directory`).  This theorem
evaluates the code at the failing inputs: a `readdir` on the known `default`
namespace whose fetch fails, a `readdir` on inode 999 (unknown to the store),
and a `lookup` inside the `default` namespace whose fetch fails all crash. -/
theorem C1_crash_eval :
    KubeFS.readdir (fun _ => none) sampleFS defaultIno 0 = Outcome.crash ∧
    KubeFS.readdir (fun _ => some []) sampleFS 999 0 = Outcome.crash ∧
    KubeFS.lookup (fun _ => none) sampleFS defaultIno "web-1" = Outcome.crash := by
  decide

/-- Claim C2 (counterexample): after the `default` namespace has been
populated with child `web-1`, a second `readdir` on it does not return the
cached children — it invokes the fetch adapter again (here returning
`web-2`) and lists the fresh result, so the claimed fetch-once/identical-
sequence behavior is false for `read_directory`. -/
theorem C2_counterexample :
    btGet defaultIno popFS.namespace_directory = some [podRes] ∧
    listingNames (KubeFS.readdir (fun _ => some ["web-2"]) popFS defaultIno 0) =
      [".", "..", "web-2"] := by
  decide

/-- Claim C2 (amended): once a namespace is populated, `lookup` serves its
children from the cache without invoking the fetch adapter (its result does
not depend on the fetcher at all); but `readdir` invokes the fetch adapter on
every call — with the `cache` flag false it crashes on a failing fetcher even
for an already-populated namespace. -/
theorem C2_lookup_cached_readdir_refetches :
    (∀ (f g : Fetcher) (fs : KubeFS) (parent : Nat) (name : String),
      (btGet parent fs.namespace_directory).isSome = true →
      KubeFS.lookup f fs parent name = KubeFS.lookup g fs parent name) ∧
    (∀ (fs : KubeFS) (ino off : Nat), ino ≠ 1 → fs.cache = false →
      KubeFS.readdir (fun _ => none) fs ino off = Outcome.crash) := by
  constructor
  · intro f g fs parent name h
    by_cases hp : parent = 1
    · simp [KubeFS.lookup, hp]
    · simp [KubeFS.lookup, hp, h]
  · intro fs ino off h1 h2
    simp only [KubeFS.readdir, if_neg h1, h2, if_pos]
    unfold KubeFS.populate_namespaces_directory
    cases hb : btGet ino fs.directory <;> simp [hb]

/-- Claim C2 (witness for the amended theorem): on the concretely populated
state `popFS`, `lookup` replies identically under two different fetchers, and
`readdir` with a failing fetcher crashes (so it did consult the fetcher). -/
theorem C2_amended_witness :
    KubeFS.lookup (fun _ => none) popFS defaultIno "web-1" =
      KubeFS.lookup (fun _ => some ["zzz"]) popFS defaultIno "web-1" ∧
    KubeFS.readdir (fun _ => none) popFS defaultIno 0 = Outcome.crash :=
  ⟨C2_lookup_cached_readdir_refetches.1 (fun _ => none) (fun _ => some ["zzz"]) popFS
      defaultIno "web-1" (by decide),
   C2_lookup_cached_readdir_refetches.2 popFS defaultIno 0 (by decide) (by decide)⟩

/-- Claim C3 (counterexample): inode 999 is unknown to the store built from
namespace listing `["default"]`, yet `getattr 999` replies attributes (the
hello-directory attributes) with a validity duration — not "no such entry". -/
theorem C3_counterexample :
    btGet 999 sampleFS.directory = none ∧
    getattr 999 = AttrReply.attr TTL HELLO_DIR_ATTR := by
  decide

/-- Claim C3 (amended): `getattr` never consults the store and never replies
an error: every inode other than 2 gets the fixed hello-directory attributes,
inode 2 gets the fixed hello-file attributes, always with the validity
duration `TTL`. -/
theorem C3_getattr_total :
    ∀ ino : Nat,
      getattr ino = AttrReply.attr TTL (if ino = 2 then HELLO_TXT_ATTR else HELLO_DIR_ATTR) ∧
      ∀ e : Nat, getattr ino ≠ AttrReply.error e := by
  intro ino
  refine ⟨?_, ?_⟩
  · unfold getattr
    by_cases h1 : ino = 1
    · subst h1
      simp
    · rw [if_neg h1]
      by_cases h2 : ino = 2 <;> simp [h2]
  · intro e
    unfold getattr
    split
    · simp
    · split <;> simp

/-- Claim C4 (counterexample): inode 1 is a directory (the root, whose
attributes have kind `Directory`), yet `read` on it replies `ENOENT`
("no such entry"), not `EISDIR` ("is a directory"). -/
theorem C4_counterexample :
    HELLO_DIR_ATTR.kind = FileType.Directory ∧
    getattr 1 = AttrReply.attr TTL HELLO_DIR_ATTR ∧
    KubeFS.read 1 0 0 = Outcome.ok (ReadReply.error ENOENT) ∧
    ENOENT ≠ EISDIR := by
  decide

/-- Claim C4 (amended): `read` serves the fixed placeholder payload only for
the sample-file inode 2; every other identifier — directory, pod leaf, or
unknown alike — replies `ENOENT`; `EISDIR` is never emitted. -/
theorem C4_read_enoent (ino : Nat) (off : Int) (size : Nat) (h : ino ≠ 2) :
    KubeFS.read ino off size = Outcome.ok (ReadReply.error ENOENT) := by
  unfold KubeFS.read
  rw [if_neg h]

/-- Claim C4 (witness for the amended theorem). -/
theorem C4_witness : KubeFS.read 1 0 0 = Outcome.ok (ReadReply.error ENOENT) :=
  C4_read_enoent 1 0 0 (by decide)

/-- Claim C5: with the fetcher for namespace `default` returning pods
`["web-1"]`, `lookup(default_ino, "web-1")` does succeed — but the entry it
replies carries attributes whose kind is `Directory`, not `RegularFile`
(`file_attr` hardcodes `Directory` and ignores the resource's own
`file_type`, which is `RegularFile`); and `lookup(default_ino, "missing")`
sends no reply at all (the reply object is dropped) instead of replying
"no such entry". -/
theorem C5_lookup_eval :
    KubeFS.lookup (fun _ => some ["web-1"]) sampleFS defaultIno "web-1" =
      Outcome.ok (popFS, EntryReply.entry TTL podRes.file_attr 1) ∧
    podRes.file_attr.kind = FileType.Directory ∧
    podRes.file_type = FileType.RegularFile ∧
    KubeFS.lookup (fun _ => some ["web-1"]) sampleFS defaultIno "missing" =
      Outcome.ok (popFS, EntryReply.dropped) := by
  decide

/-- Claim C6: every mutating operation replies exactly `ENOSYS` ("operation
not supported") for every identifier and every argument combination — each
entry point is a total function that never succeeds and never panics. -/
theorem C6_mutating_enosys :
    (∀ ino mode uid gid size atime anow mtime mnow fh crtime chgtime bkuptime flags,
      setattr ino mode uid gid size atime anow mtime mnow fh crtime chgtime bkuptime flags =
        AttrReply.error ENOSYS) ∧
    (∀ parent name mode rdev, mknod parent name mode rdev = EntryReply.error ENOSYS) ∧
    (∀ parent name mode, mkdir parent name mode = EntryReply.error ENOSYS) ∧
    (∀ parent name, unlink parent name = EmptyReply.error ENOSYS) ∧
    (∀ parent name, rmdir parent name = EmptyReply.error ENOSYS) ∧
    (∀ parent name lnk, symlink parent name lnk = EntryReply.error ENOSYS) ∧
    (∀ parent name newparent newname,
      rename parent name newparent newname = EmptyReply.error ENOSYS) ∧
    (∀ ino newparent newname, link ino newparent newname = EntryReply.error ENOSYS) ∧
    (∀ ino fh off data flags, write ino fh off data flags = WriteReply.error ENOSYS) ∧
    (∀ ino name value flags position,
      setxattr ino name value flags position = EmptyReply.error ENOSYS) ∧
    (∀ ino name, removexattr ino name = EmptyReply.error ENOSYS) ∧
    (∀ parent name mode flags, create parent name mode flags = CreateReply.error ENOSYS) ∧
    (∀ a b c d e t p, getlk a b c d e t p = EmptyReply.error ENOSYS) ∧
    (∀ a b c d e t p s, setlk a b c d e t p s = EmptyReply.error ENOSYS) := by
  refine ⟨?_, ?_, ?_, ?_, ?_, ?_, ?_, ?_, ?_, ?_, ?_, ?_, ?_, ?_⟩ <;> intros <;> rfl

/-- Claim C7: for a directory identifier on which `readdir` succeeds, the
offset-0 listing starts with the self and parent entries at cursors 1 and 2
followed by the children, every entry at index `i` carries the 1-based
cursor `i + 1`, the listing at offset `off` is exactly the offset-0 listing
with the first `off` entries dropped (same final state, clean `ok` reply),
and an offset at or beyond the entry count yields zero entries. -/
theorem C7_readdir_paging (get_pods : Fetcher) (fs fs1 : KubeFS) (ino off : Nat)
    (L : List DirEntry) (h : KubeFS.readdir get_pods fs ino 0 = Outcome.ok (fs1, L)) :
    KubeFS.readdir get_pods fs ino off = Outcome.ok (fs1, L.drop off) ∧
    (∃ rest, L =
      { ino := ino, cursor := 1, kind := FileType.Directory, name := "." } ::
      { ino := ino, cursor := 2, kind := FileType.Directory, name := ".." } :: rest) ∧
    (∀ i (hi : i < L.length), (L.get ⟨i, hi⟩).cursor = i + 1) ∧
    (L.length ≤ off → L.drop off = []) := by
  by_cases hino : ino = 1
  · subst hino
    simp only [KubeFS.readdir, if_pos] at h ⊢
    simp only [Outcome.ok.injEq, Prod.mk.injEq] at h
    obtain ⟨hfs, hL⟩ := h
    subst hfs
    subst hL
    refine ⟨?_, ?_, ?_, ?_⟩
    · rw [emitEntries_drop]
    · exact ⟨_, emitEntries_base 1 _⟩
    · intro i hi
      exact emitEntries_cursor _ i hi
    · exact List.drop_eq_nil_of_le
  · simp only [KubeFS.readdir, if_neg hino] at h ⊢
    by_cases hc : fs.cache = false
    · rw [if_pos hc] at h
      rw [if_pos hc]
      split at h
      · exact absurd h (by simp)
      · rename_i fs2 heq
        simp only [Outcome.ok.injEq, Prod.mk.injEq] at h
        obtain ⟨hfs, hL⟩ := h
        subst hfs
        subst hL
        refine ⟨?_, ?_, ?_, ?_⟩
        · rw [emitEntries_drop]
        · exact ⟨_, emitEntries_base ino _⟩
        · intro i hi
          exact emitEntries_cursor _ i hi
        · exact List.drop_eq_nil_of_le
    · rw [if_neg hc] at h
      exact absurd h (by simp)

/-- Claim C7 (witness): on the store built from `["default"]`, the root
listing has three entries, so `readdir` at offset 5 emits zero entries and
still replies `ok`. -/
theorem C7_witness :
    KubeFS.readdir (fun _ => none) sampleFS 1 5 = Outcome.ok (sampleFS, sampleRootL.drop 5) ∧
    sampleRootL.drop 5 = [] := by
  have h := C7_readdir_paging (fun _ => none) sampleFS sampleFS 1 5 sampleRootL (by decide)
  exact ⟨h.1, h.2.2.2 (by decide)⟩

/-- Claim C8: every namespace name in the root listing round-trips — a
`lookup` at the root for that name replies an entry whose attribute inode is
exactly the identifier the listing reported for it (under any fetcher: the
root paths never fetch). -/
theorem C8_roundtrip (namespaces : List String) (f g : Fetcher) (ino curs : Nat)
    (ft : FileType) (sname : String)
    (h1 : ({ ino := ino, cursor := curs, kind := ft, name := sname } : DirEntry) ∈
      rootListing f (mkKubeFS namespaces))
    (h2 : sname ≠ ".") (h3 : sname ≠ "..") :
    ∃ a : FileAttr,
      KubeFS.lookup g (mkKubeFS namespaces) 1 sname =
        Outcome.ok (mkKubeFS namespaces, EntryReply.entry TTL a 1) ∧ a.ino = ino := by
  have h1' : ({ ino := ino, cursor := curs, kind := ft, name := sname } : DirEntry) ∈
      emitEntries (baseEntries 1 ++ (mkKubeFS namespaces).directory.map
        (fun p => (p.1, FileType.Directory, refNameOf p.2.reference))) 0 := h1
  unfold emitEntries at h1'
  rw [List.drop_zero] at h1'
  obtain ⟨p, hpm, hpe⟩ := List.mem_map.mp h1'
  obtain ⟨i, xi, xf, xn⟩ := p
  simp only [DirEntry.mk.injEq] at hpe
  obtain ⟨he1, he2, he3, he4⟩ := hpe
  have hx := mem_of_mem_enum hpm
  rcases List.mem_append.mp hx with hb | hm
  · simp only [baseEntries, List.mem_cons, List.mem_singleton, Prod.mk.injEq,
      List.not_mem_nil, or_false] at hb
    rcases hb with ⟨-, -, hb⟩ | ⟨-, -, hb⟩
    · exact absurd (by rw [← he4]; exact hb) h2
    · exact absurd (by rw [← he4]; exact hb) h3
  · obtain ⟨q, hq, hqe⟩ := List.mem_map.mp hm
    obtain ⟨n, hn, hqn⟩ := mem_mkKubeFS_directory hq
    have hq1 : q.1 = (KubernetesResource.new_namespace n).inode := by rw [hqn]
    have hq2 : q.2 = KubernetesResource.new_namespace n := by rw [hqn]
    simp only [Prod.mk.injEq] at hqe
    obtain ⟨hqe1, hqe2, hqe3⟩ := hqe
    have hsn : sname = n := by
      rw [← he4, ← hqe3, hq2]
      rfl
    have hino : ino = (KubernetesResource.new_namespace sname).inode := by
      rw [← he1, ← hqe1, hq1, hsn]
    have hall : ∀ r ∈ (mkKubeFS namespaces).directory.map Prod.snd,
        ∃ m, r = KubernetesResource.new_namespace m := by
      intro r hr
      obtain ⟨q1, hq1m, hq1e⟩ := List.mem_map.mp hr
      obtain ⟨m, -, hq1n⟩ := mem_mkKubeFS_directory hq1m
      exact ⟨m, by rw [← hq1e, hq1n]⟩
    have hex : ∃ r ∈ (mkKubeFS namespaces).directory.map Prod.snd,
        refNameOf r.reference = sname := by
      refine ⟨q.2, List.mem_map_of_mem Prod.snd hq, ?_⟩
      rw [hq2, hsn]
      rfl
    refine ⟨(KubernetesResource.new_namespace sname).file_attr, ?_, ?_⟩
    · show Outcome.ok ((mkKubeFS namespaces),
        scanEntry sname ((mkKubeFS namespaces).directory.map Prod.snd)) = _
      rw [scanEntry_namespace hall hex]
    · exact hino.symm

/-- Claim C8 (witness): on the store built from `["default"]`, the root
listing contains the `default` entry with its derived inode, and looking
`default` up at the root returns an entry with that same inode. -/
theorem C8_witness :
    ∃ a : FileAttr,
      KubeFS.lookup (fun _ => some []) (mkKubeFS ["default"]) 1 "default" =
        Outcome.ok (mkKubeFS ["default"], EntryReply.entry TTL a 1) ∧
      a.ino = (KubernetesResource.new_namespace "default").inode :=
  C8_roundtrip ["default"] (fun _ => none) (fun _ => some [])
    (KubernetesResource.new_namespace "default").inode 3 FileType.Directory "default"
    (by decide) (by decide) (by decide)

/-- Claim C9: the identifier derivation is a deterministic pure function of
the resource's identity fields (equal scope, kind, group and file type give
equal inodes — the hash has no randomness or per-process salt), and within a
freshly-built store the identifier `readdir` lists for a resource (its map
key) and the identifier `lookup` replies for it (`file_attr().ino`) are both
that same derived inode. -/
theorem C9_inode_deterministic :
    (∀ r s : KubernetesResource, r.reference = s.reference → r.kind = s.kind →
      r.group = s.group → r.file_type = s.file_type → r.inode = s.inode) ∧
    (∀ (namespaces : List String) (k : Nat) (r : KubernetesResource),
      (k, r) ∈ (mkKubeFS namespaces).directory →
      k = r.inode ∧ r.file_attr.ino = r.inode) := by
  constructor
  · intro r s h1 h2 h3 h4
    obtain ⟨r1, r2, r3, r4⟩ := r
    obtain ⟨s1, s2, s3, s4⟩ := s
    simp only at h1 h2 h3 h4
    subst h1
    subst h2
    subst h3
    subst h4
    rfl
  · intro ns k r h
    obtain ⟨n, -, hp⟩ := mem_mkKubeFS_directory h
    simp only [Prod.mk.injEq] at hp
    obtain ⟨hk, hr⟩ := hp
    refine ⟨?_, rfl⟩
    rw [hk, hr]

/-- Claim C9 (witness): two syntactically different but field-equal resource
values hash to the same inode, and the key the store files `default` under
is that namespace resource's own inode. -/
theorem C9_witness :
    (KubernetesResource.new_namespace "a").inode =
      ({ reference := ResourceScope.Cluster "a", kind := "namespace", group := "corev1",
         file_type := FileType.Directory } : KubernetesResource).inode ∧
    defaultIno = (KubernetesResource.new_namespace "default").inode :=
  ⟨C9_inode_deterministic.1 _ _ rfl rfl rfl rfl,
   (C9_inode_deterministic.2 ["default"] defaultIno
      (KubernetesResource.new_namespace "default") (by decide)).1⟩

/-- Claim C10: `read` on the sample-file inode 2 ignores the `size` argument
and replies the whole remaining suffix of the 13-byte payload starting at
`offset`; over the i64 range the slice is in bounds (no panic) exactly when
`0 ≤ offset ≤ 13` — a larger offset, or a negative offset wrapped by the
`as usize` cast, panics. -/
theorem C10_read_bounds (offset : Int) (size size2 : Nat)
    (hlo : -(2 ^ 63) ≤ offset) (hhi : offset < 2 ^ 63) :
    ((KubeFS.read 2 offset size ≠ Outcome.crash) ↔ (0 ≤ offset ∧ offset ≤ 13)) ∧
    KubeFS.read 2 offset size = KubeFS.read 2 offset size2 ∧
    (0 ≤ offset → offset ≤ 13 →
      KubeFS.read 2 offset size = Outcome.ok (ReadReply.data (helloBytes.drop offset.toNat))) := by
  have hlen : helloBytes.length = 13 := by decide
  refine ⟨?_, rfl, ?_⟩
  · show (if (offset % (2 ^ 64 : Int)).toNat ≤ helloBytes.length
        then Outcome.ok (ReadReply.data (helloBytes.drop (offset % (2 ^ 64 : Int)).toNat))
        else Outcome.crash) ≠ Outcome.crash ↔ (0 ≤ offset ∧ offset ≤ 13)
    by_cases hb : ((offset % (2 ^ 64 : Int)).toNat ≤ helloBytes.length)
    · rw [if_pos hb]
      rw [hlen] at hb
      constructor
      · intro _
        omega
      · intro _
        simp
    · rw [if_neg hb]
      rw [hlen] at hb
      constructor
      · intro hcr
        exact absurd rfl hcr
      · intro hp
        exfalso
        obtain ⟨hp1, hp2⟩ := hp
        omega
  · intro h1 h2
    show (if (offset % (2 ^ 64 : Int)).toNat ≤ helloBytes.length
        then Outcome.ok (ReadReply.data (helloBytes.drop (offset % (2 ^ 64 : Int)).toNat))
        else Outcome.crash) = Outcome.ok (ReadReply.data (helloBytes.drop offset.toNat))
    have he : (offset % (2 ^ 64 : Int)).toNat = offset.toNat := by omega
    rw [he]
    have hbnd : offset.toNat ≤ helloBytes.length := by
      rw [hlen]
      omega
    rw [if_pos hbnd]

/-- Claim C10 (witness): reading at offset 5 (any size) replies the suffix of
the payload from byte 5 on. -/
theorem C10_witness :
    KubeFS.read 2 5 100 = Outcome.ok (ReadReply.data (helloBytes.drop (5 : Int).toNat)) :=
  (C10_read_bounds 5 100 0 (by decide) (by decide)).2.2 (by decide) (by decide)
